import Mathlib

/-!
Verification of the schema translation engine of the table_migration
repository (`src/core/schema_translator.py`, data model in
`src/core/database_connector.py`), shallowly embedded in Lean.

Embedding conventions: Python `Optional[int]` fields become `Option Int`;
Python truthiness of an optional integer (`if x:`) treats `None` and `0` as
falsy; Python `//` is floor division (`Int.fdiv`); `str.upper()` is
ASCII upper-casing (`String.toUpper`); `"sep".join(parts)` is
`String.intercalate`.  All functions are total, mirroring the engine's
never-raises contract.
-/

/-- Column metadata record: `ColumnInfo` in `src/core/database_connector.py`. -/
structure ColumnInfo where
  column_name : String
  data_type : String
  nullable : Bool
  max_length : Option Int := none
  precision : Option Int := none
  scale : Option Int := none
  is_primary_key : Bool := false
  is_unique : Bool := false
  default_value : Option String := none
  deriving Repr, DecidableEq

/-- Table metadata record: `TableInfo` in `src/core/database_connector.py`. -/
structure TableInfo where
  table_name : String
  schema_name : String
  table_type : String
  columns : List ColumnInfo
  primary_keys : List String
  unique_constraints : List (List String)
  row_count : Option Int := none
  deriving Repr, DecidableEq

/-- Python truthiness of an `Optional[int]`: `None` and `0` are falsy. -/
def int_truthy : Option Int → Bool
  | none => false
  | some n => n != 0

/-- Python `x or d` for an `Optional[int]` `x`: the default kicks in when
`x` is `None` or `0`. -/
def int_or (x : Option Int) (d : Int) : Int :=
  if int_truthy x = true then x.getD 0 else d

/-- Python truthiness of an `Optional[str]`: `None` and `""` are falsy. -/
def str_truthy : Option String → Bool
  | none => false
  | some s => s != ""

/-- Python `str.upper()`: ASCII upper-casing, character by character. -/
def py_upper (s : String) : String :=
  String.mk (s.toList.map Char.toUpper)

/-- The static type lookup `self.oracle_to_sqlserver_mapping`
(schema_translator.py lines 21-44), as a partial map on upper-case names. -/
def oracle_to_sqlserver_mapping : String → Option String
  | "VARCHAR2" => some "NVARCHAR"
  | "NVARCHAR2" => some "NVARCHAR"
  | "CHAR" => some "NCHAR"
  | "NCHAR" => some "NCHAR"
  | "NUMBER" => some "DECIMAL"
  | "FLOAT" => some "FLOAT"
  | "BINARY_FLOAT" => some "REAL"
  | "BINARY_DOUBLE" => some "FLOAT"
  | "DATE" => some "DATETIME2"
  | "TIMESTAMP" => some "DATETIME2"
  | "TIMESTAMP WITH TIME ZONE" => some "DATETIMEOFFSET"
  | "TIMESTAMP WITH LOCAL TIME ZONE" => some "DATETIME2"
  | "CLOB" => some "NVARCHAR(MAX)"
  | "NCLOB" => some "NVARCHAR(MAX)"
  | "BLOB" => some "VARBINARY(MAX)"
  | "RAW" => some "VARBINARY"
  | "LONG RAW" => some "VARBINARY(MAX)"
  | "ROWID" => some "UNIQUEIDENTIFIER"
  | "UROWID" => some "UNIQUEIDENTIFIER"
  | "XMLTYPE" => some "XML"
  | "BFILE" => some "NVARCHAR(MAX)"
  | "LONG" => some "NVARCHAR(MAX)"
  | _ => none

/-- The type/precision/scale part of `SchemaTranslator._translate_column`
(lines 66-93): the NUMBER special case, then the static lookup with
identity fallback.  `col.precision and col.precision <= 9` is Python
truthiness: `None` and `0` both take the `BIGINT` arm. -/
def translate_type (col : ColumnInfo) : String × Option Int × Option Int :=
  let original_type := py_upper col.data_type
  if original_type = "NUMBER" then
    if col.precision = none ∧ col.scale = none then
      ("BIGINT", none, none)
    else if col.scale = none ∨ col.scale = some 0 then
      match col.precision with
      | some p => if p ≠ 0 ∧ p ≤ 9 then ("INT", none, none) else ("BIGINT", none, none)
      | none => ("BIGINT", none, none)
    else
      ("DECIMAL", col.precision, col.scale)
  else
    ((oracle_to_sqlserver_mapping original_type).getD original_type, col.precision, col.scale)

/-- The length part of `SchemaTranslator._translate_column` (lines 95-113):
defaults for missing lengths, byte-to-character conversion with clamping for
the Unicode types, byte clamping for VARBINARY.  The conversion guards
(`and new_length`) use Python truthiness, so a length of `0` skips both. -/
def translate_length (new_type : String) (source_length : Option Int) : Option Int :=
  if new_type = "NVARCHAR" ∨ new_type = "NCHAR" ∨ new_type = "VARBINARY" then
    let l :=
      if source_length = none then
        if new_type = "NVARCHAR" then some (255 : Int)
        else if new_type = "NCHAR" then some (1 : Int)
        else none
      else source_length
    if (new_type = "NVARCHAR" ∨ new_type = "NCHAR") ∧ int_truthy l = true then
      some (max 1 (min (Int.fdiv (l.getD 0) 4) 4000))
    else if new_type = "VARBINARY" ∧ int_truthy l = true then
      some (min (l.getD 0) 8000)
    else l
  else source_length

/-- `SchemaTranslator._translate_column` (lines 66-125). -/
def translate_column (col : ColumnInfo) : ColumnInfo :=
  let t := translate_type col
  { column_name := col.column_name
    data_type := t.1
    nullable := col.nullable
    max_length := translate_length t.1 col.max_length
    precision := t.2.1
    scale := t.2.2
    is_primary_key := col.is_primary_key
    is_unique := col.is_unique
    default_value := col.default_value }

/-- `SchemaTranslator.translate_oracle_to_sqlserver` (lines 49-64). -/
def translate_oracle_to_sqlserver (t : TableInfo) : TableInfo :=
  { table_name := t.table_name
    schema_name := t.schema_name
    table_type := t.table_type
    columns := t.columns.map translate_column
    primary_keys := t.primary_keys
    unique_constraints := t.unique_constraints
    row_count := t.row_count }

/-- The fixed audit column built in `SchemaTranslator.add_audit_columns`
(lines 137-142). -/
def audit_column : ColumnInfo :=
  { column_name := "record_insert_datetime"
    data_type := "DATETIME2"
    nullable := false
    default_value := some "GETDATE()" }

/-- `SchemaTranslator.add_audit_columns` (lines 135-155). -/
def add_audit_columns (t : TableInfo) : TableInfo :=
  { table_name := t.table_name
    schema_name := t.schema_name
    table_type := t.table_type
    columns := t.columns ++ [audit_column]
    primary_keys := t.primary_keys
    unique_constraints := t.unique_constraints
    row_count := t.row_count }

/-- The data-type rendering inside `SchemaTranslator._format_column_definition`
(lines 220-235).  All three variable-length types share the single `> 4000`
threshold for the `(MAX)` form, and a falsy (`None` or `0`) length takes the
`(255)` default branch. -/
def format_column_type (col : ColumnInfo) : String :=
  if col.data_type = "NVARCHAR" ∨ col.data_type = "NCHAR" ∨ col.data_type = "VARBINARY" then
    if int_truthy col.max_length = true then
      if col.max_length.getD 0 > 4000 then col.data_type ++ "(MAX)"
      else col.data_type ++ "(" ++ toString (col.max_length.getD 0) ++ ")"
    else col.data_type ++ "(255)"
  else if col.data_type = "DECIMAL" ∧ int_truthy col.precision = true then
    if int_truthy col.scale = true then
      col.data_type ++ "(" ++ toString (col.precision.getD 0) ++ "," ++ toString (col.scale.getD 0) ++ ")"
    else col.data_type ++ "(" ++ toString (col.precision.getD 0) ++ ")"
  else col.data_type

/-- `SchemaTranslator._format_column_definition` (lines 217-248). -/
def format_column_definition (col : ColumnInfo) : String :=
  let parts := ["[" ++ col.column_name ++ "]", format_column_type col]
  let parts := if col.nullable = false then parts ++ ["NOT NULL"] else parts
  let parts :=
    if str_truthy col.default_value = true then
      if col.column_name = "record_insert_datetime" then
        parts ++ ["CONSTRAINT [DF_" ++ col.column_name ++ "] DEFAULT (" ++ col.default_value.getD "" ++ ")"]
      else
        parts ++ ["DEFAULT " ++ col.default_value.getD ""]
    else parts
  String.intercalate " " parts

/-- The projected-column loop of `SchemaTranslator._generate_view_ddl`
(lines 258-261): every column named `record_insert_datetime` is skipped. -/
def view_column_list (columns : List ColumnInfo) : List String :=
  columns.foldl
    (fun acc col =>
      if col.column_name ≠ "record_insert_datetime" then
        acc ++ ["    [" ++ col.column_name ++ "]"]
      else acc)
    []

/-- `SchemaTranslator._generate_view_ddl` (lines 250-267). -/
def generate_view_ddl (target_schema target_table_name view_name : String)
    (columns : List ColumnInfo) : String :=
  String.intercalate "\n"
    ["CREATE VIEW [" ++ target_schema ++ "].[" ++ view_name ++ "] AS",
     "SELECT",
     String.intercalate ",\n" (view_column_list columns),
     "FROM [" ++ target_schema ++ "].[" ++ target_table_name ++ "];"]

/-- The reserved-word set of `SchemaTranslator.validate_naming_convention`
(lines 295-300). -/
def reserved_words : List String :=
  ["SELECT", "FROM", "WHERE", "INSERT", "UPDATE", "DELETE", "CREATE", "DROP",
   "ALTER", "TABLE", "VIEW", "INDEX", "DATABASE", "SCHEMA", "USER", "ORDER",
   "GROUP", "HAVING", "UNION", "JOIN", "INNER", "LEFT", "RIGHT", "FULL",
   "OUTER", "ON", "AS", "AND", "OR", "NOT", "IN", "EXISTS", "LIKE", "BETWEEN"]

/-- One character sequence matched against `[a-zA-Z_][a-zA-Z0-9_]*`:
nonempty, letter-or-underscore head, alphanumeric-or-underscore tail. -/
def matches_name_pattern (chars : List Char) : Bool :=
  match chars with
  | [] => false
  | c :: rest => (c.isAlpha || c == '_') && rest.all (fun d => d.isAlphanum || d == '_')

/-- Python `re.match(r'^[a-zA-Z_][a-zA-Z0-9_]*$', s)` as used at line 291:
in Python the `$` anchor also matches just before a single newline at the
very end of the string, so `"abc\n"` is accepted. -/
def regex_accepts (s : String) : Bool :=
  let chars := s.toList
  matches_name_pattern (if chars.getLast? == some '\n' then chars.dropLast else chars)

/-- The same pattern under the ordinary (full-match, no trailing-newline
allowance) reading of `^[a-zA-Z_][a-zA-Z0-9_]*$`, used to state what the
specification's regex says. -/
def regex_accepts_strict (s : String) : Bool :=
  matches_name_pattern s.toList

/-- `SchemaTranslator.validate_naming_convention` (lines 283-305). -/
def validate_naming_convention (table_name : String) : Bool × String :=
  if table_name = "" then
    (false, "Table name cannot be empty")
  else if table_name.length > 128 then
    (false, "Table name cannot exceed 128 characters")
  else if regex_accepts table_name = false then
    (false, "Table name must start with letter or underscore and contain only letters, numbers, and underscores")
  else if reserved_words.contains (py_upper table_name) then
    (false, "\x27" ++ table_name ++ "\x27 is a reserved word and cannot be used as a table name")
  else
    (true, "Valid table name")

/-- Python `pat in s` membership for strings, used by the storage notes. -/
def contains_substr (s pat : String) : Bool :=
  decide (1 < (s.splitOn pat).length)

/-- Result record of `SchemaTranslator.estimate_storage_impact`; the Python
float division for megabytes is embedded as exact rational division. -/
structure StorageEstimate where
  estimated_row_size_bytes : Int
  estimated_table_size_mb : ℚ
  variable_length_columns : Int
  has_large_objects : Bool
  performance_notes : List String
  deriving Repr, DecidableEq

/-- `SchemaTranslator._get_performance_notes` (lines 362-377). -/
def get_performance_notes (t : TableInfo) : List String :=
  let notes : List String := []
  let notes :=
    if t.columns.any (fun col => contains_substr col.data_type "MAX") then
      notes ++ ["Table contains large object columns (MAX) which may impact performance"]
    else notes
  let notes :=
    if t.primary_keys = [] then
      notes ++ ["Table has no primary key - consider adding one for better performance"]
    else notes
  let notes :=
    if 10 < (t.columns.filter (fun col => col.data_type = "NVARCHAR")).length then
      notes ++ ["Table has many variable-length columns which may impact row storage"]
    else notes
  notes

/-- One iteration of the column loop of
`SchemaTranslator.estimate_storage_impact` (lines 328-344), threading the
(row size, variable-length column count) accumulator; note that VARBINARY
shares the `length * 2` / 510-default arm with NVARCHAR, and that the
guards are Python-truthy. -/
def storage_accumulate (acc : Int × Int) (col : ColumnInfo) : Int × Int :=
  if col.data_type = "NVARCHAR" ∨ col.data_type = "VARBINARY" then
    (acc.1 + (if int_truthy col.max_length = true then col.max_length.getD 0 * 2 else 510),
     acc.2 + 1)
  else if col.data_type = "NCHAR" then
    (acc.1 + int_or col.max_length 1 * 2, acc.2)
  else if col.data_type = "INT" ∨ col.data_type = "BIGINT" then
    (acc.1 + 8, acc.2)
  else if col.data_type = "DECIMAL" then
    (acc.1 + 9, acc.2)
  else if col.data_type = "DATETIME2" then
    (acc.1 + 8, acc.2)
  else
    (acc.1 + 8, acc.2)

/-- `SchemaTranslator.estimate_storage_impact` (lines 323-360). -/
def estimate_storage_impact (t : TableInfo) : StorageEstimate :=
  let acc := t.columns.foldl storage_accumulate ((0 : Int), (0 : Int))
  let estimated_row_size := acc.1 + 24
  let estimated_table_size_mb : ℚ :=
    if int_truthy t.row_count = true then
      ((estimated_row_size * t.row_count.getD 0 : Int) : ℚ) / ((1024 : ℚ) * 1024)
    else 0
  { estimated_row_size_bytes := estimated_row_size
    estimated_table_size_mb := estimated_table_size_mb
    variable_length_columns := acc.2
    has_large_objects := t.columns.any (fun col => col.data_type.endsWith "(MAX)")
    performance_notes := get_performance_notes t }

/-- Per-column byte contribution, factored out of the loop of
`estimate_storage_impact` to state its row-size sum. -/
def column_size_estimate (col : ColumnInfo) : Int :=
  if col.data_type = "NVARCHAR" ∨ col.data_type = "VARBINARY" then
    if int_truthy col.max_length = true then col.max_length.getD 0 * 2 else 510
  else if col.data_type = "NCHAR" then int_or col.max_length 1 * 2
  else if col.data_type = "INT" ∨ col.data_type = "BIGINT" then 8
  else if col.data_type = "DECIMAL" then 9
  else if col.data_type = "DATETIME2" then 8
  else 8

/-! ## Helper lemmas -/

/-- The byte-to-character conversion arm of `translate_length`: for the two
Unicode character types and a present, Python-truthy length the result is the
clamped quotient. -/
theorem translate_length_char (nt : String) (L : Int)
    (h : nt = "NVARCHAR" ∨ nt = "NCHAR") (hnz : L ≠ 0) :
    translate_length nt (some L) = some (max 1 (min (Int.fdiv L 4) 4000)) := by
  rcases h with h | h <;> subst h <;>
    simp [translate_length, int_truthy, bne_iff_ne, hnz]

/-- The clamp `max(1, min(v, 4000))` always lands in `[1, 4000]`. -/
theorem clamp_mem (v : Int) : 1 ≤ max 1 (min v 4000) ∧ max 1 (min v 4000) ≤ 4000 :=
  ⟨le_max_left _ _, max_le (by norm_num) (min_le_right _ _)⟩

/-- Projections of `translate_column` in terms of its two phases. -/
theorem translate_column_fields (col : ColumnInfo) :
    (translate_column col).column_name = col.column_name ∧
    (translate_column col).data_type = (translate_type col).1 ∧
    (translate_column col).nullable = col.nullable ∧
    (translate_column col).max_length = translate_length (translate_type col).1 col.max_length ∧
    (translate_column col).precision = (translate_type col).2.1 ∧
    (translate_column col).scale = (translate_type col).2.2 ∧
    (translate_column col).is_primary_key = col.is_primary_key ∧
    (translate_column col).is_unique = col.is_unique ∧
    (translate_column col).default_value = col.default_value :=
  ⟨rfl, rfl, rfl, rfl, rfl, rfl, rfl, rfl, rfl⟩

/-! ## Claims -/

/-- C1 (amended): for a NUMBER column, translation yields BIGINT with no
precision/scale when neither is specified; when scale is absent or zero (and
they are not both absent) it yields INT exactly when the precision is
present, nonzero and at most 9 — Python truthiness sends an absent or zero
precision to BIGINT — and BIGINT otherwise, discarding precision and scale;
when scale is present and nonzero it yields DECIMAL preserving precision
and scale. -/
theorem c1_number_translation (col : ColumnInfo) (h : py_upper col.data_type = "NUMBER") :
    ((col.precision = none ∧ col.scale = none) →
      (translate_column col).data_type = "BIGINT" ∧
      (translate_column col).precision = none ∧ (translate_column col).scale = none) ∧
    (¬(col.precision = none ∧ col.scale = none) →
     (col.scale = none ∨ col.scale = some 0) →
      ((∃ p, col.precision = some p ∧ p ≠ 0 ∧ p ≤ 9) →
        (translate_column col).data_type = "INT") ∧
      (¬(∃ p, col.precision = some p ∧ p ≠ 0 ∧ p ≤ 9) →
        (translate_column col).data_type = "BIGINT") ∧
      (translate_column col).precision = none ∧ (translate_column col).scale = none) ∧
    (∀ s, col.scale = some s → s ≠ 0 →
      (translate_column col).data_type = "DECIMAL" ∧
      (translate_column col).precision = col.precision ∧
      (translate_column col).scale = col.scale) := by
  obtain ⟨-, hdt, -, -, hp, hs, -, -, -⟩ := translate_column_fields col
  refine ⟨?_, ?_, ?_⟩
  · rintro ⟨h1, h2⟩
    rw [hdt, hp, hs]
    simp [translate_type, h, h1, h2]
  · intro hne hsz
    rw [hdt, hp, hs]
    cases hprec : col.precision with
    | none =>
      have h2 : ¬(col.scale = none) := fun hc => hne ⟨hprec, hc⟩
      rcases hsz with h0 | h0
      · exact absurd h0 h2
      · simp [translate_type, h, hprec, h0, h2]
    | some p =>
      by_cases hpc : p ≠ 0 ∧ p ≤ 9
      · rcases hsz with h0 | h0 <;>
          simp [translate_type, h, hprec, h0, hpc, hne]
      · rcases hsz with h0 | h0 <;>
          simp [translate_type, h, hprec, h0, hpc, hne]
  · intro s hss hsnz
    rw [hdt, hp, hs]
    have h1 : ¬(col.precision = none ∧ col.scale = none) := by
      rintro ⟨-, hc⟩; rw [hss] at hc; cases hc
    have h2 : ¬(col.scale = none ∨ col.scale = some 0) := by
      rintro (hc | hc) <;> rw [hss] at hc
      · cases hc
      · exact hsnz (Option.some_inj.mp hc)
    simp [translate_type, h, h1, h2]

/-- C1 witness: `NUMBER(10,2)` translates to `DECIMAL(10,2)`. -/
theorem c1_number_translation_witness :
    (translate_column ⟨"amount", "NUMBER", true, none, some 10, some 2, false, false, none⟩).data_type = "DECIMAL" ∧
    (translate_column ⟨"amount", "NUMBER", true, none, some 10, some 2, false, false, none⟩).precision = some 10 ∧
    (translate_column ⟨"amount", "NUMBER", true, none, some 10, some 2, false, false, none⟩).scale = some 2 :=
  (c1_number_translation ⟨"amount", "NUMBER", true, none, some 10, some 2, false, false, none⟩
    (by decide)).2.2 2 rfl (by decide)

/-- C1 counterexample: a NUMBER column with precision 0 and scale 0 has
precision ≤ 9, yet the code maps it to BIGINT, not INT, because Python's
`col.precision and col.precision <= 9` treats a zero precision as falsy. -/
theorem c1_number_counterexample :
    (translate_column ⟨"n", "NUMBER", true, none, some 0, some 0, false, false, none⟩).data_type = "BIGINT" ∧
    ¬(translate_column ⟨"n", "NUMBER", true, none, some 0, some 0, false, false, none⟩).data_type = "INT" ∧
    (0 : Int) ≤ 9 := by decide

/-- C2 (amended): for a column whose translated type is NVARCHAR or NCHAR
and whose source byte length is explicitly given and nonzero, the translated
length is the byte length floor-divided by 4 and clamped into `[1, 4000]`
(a given length of exactly 0 is Python-falsy and skips the conversion). -/
theorem c2_length_conversion (col : ColumnInfo) (L : Int)
    (htype : (translate_column col).data_type = "NVARCHAR" ∨
             (translate_column col).data_type = "NCHAR")
    (hlen : col.max_length = some L) (hnz : L ≠ 0) :
    (translate_column col).max_length = some (max 1 (min (Int.fdiv L 4) 4000)) := by
  obtain ⟨-, hdt, -, hml, -, -, -, -, -⟩ := translate_column_fields col
  rw [hdt] at htype
  rw [hml, hlen, translate_length_char _ _ htype hnz]

/-- C2 witness: a byte length of 400 on a `VARCHAR2` column yields
character length 100. -/
theorem c2_length_conversion_witness :
    (translate_column ⟨"name", "VARCHAR2", false, some 400, none, none, false, false, none⟩).max_length = some 100 :=
  Eq.trans
    (c2_length_conversion ⟨"name", "VARCHAR2", false, some 400, none, none, false, false, none⟩
      400 (Or.inl (by decide)) rfl (by decide))
    (by decide)

/-- C2 counterexample: an explicitly given byte length of 0 is preserved as
0 rather than divided and clamped to 1, because the conversion guard
`and new_length` is Python-falsy at 0. -/
theorem c2_length_counterexample :
    (translate_column ⟨"c", "VARCHAR2", true, some 0, none, none, false, false, none⟩).data_type = "NVARCHAR" ∧
    (translate_column ⟨"c", "VARCHAR2", true, some 0, none, none, false, false, none⟩).max_length = some 0 ∧
    max 1 (min (Int.fdiv 0 4) 4000) = 1 := by decide

/-- C3: a column whose translated type is NVARCHAR (resp. NCHAR) and whose
source length is absent translates exactly as if the documented default
length 255 (resp. 1) had been given; translation is a total function, so it
never raises. -/
theorem c3_default_lengths (col : ColumnInfo) (hnone : col.max_length = none) :
    ((translate_type col).1 = "NVARCHAR" →
      translate_column col = translate_column { col with max_length := some 255 }) ∧
    ((translate_type col).1 = "NCHAR" →
      translate_column col = translate_column { col with max_length := some 1 }) := by
  have htype : translate_type { col with max_length := some (255 : Int) } = translate_type col := rfl
  have htype1 : translate_type { col with max_length := some (1 : Int) } = translate_type col := rfl
  constructor
  · intro h
    have hlen : translate_length (translate_type col).1 col.max_length
              = translate_length (translate_type col).1 (some 255) := by
      rw [hnone, h]; decide
    exact congrArg
      (fun ml => ColumnInfo.mk col.column_name (translate_type col).1 col.nullable
        ml (translate_type col).2.1 (translate_type col).2.2 col.is_primary_key
        col.is_unique col.default_value) hlen
  · intro h
    have hlen : translate_length (translate_type col).1 col.max_length
              = translate_length (translate_type col).1 (some 1) := by
      rw [hnone, h]; decide
    exact congrArg
      (fun ml => ColumnInfo.mk col.column_name (translate_type col).1 col.nullable
        ml (translate_type col).2.1 (translate_type col).2.2 col.is_primary_key
        col.is_unique col.default_value) hlen

/-- C3 witness: a `VARCHAR2` column with no length translates like one of
length 255 (both come out as `NVARCHAR(63)` after the byte conversion). -/
theorem c3_default_lengths_witness :
    translate_column ⟨"c", "VARCHAR2", true, none, none, none, false, false, none⟩ =
      translate_column ⟨"c", "VARCHAR2", true, some 255, none, none, false, false, none⟩ :=
  (c3_default_lengths ⟨"c", "VARCHAR2", true, none, none, none, false, false, none⟩ rfl).1 (by decide)

/-- C4 (amended): for the three variable-length types the column-definition
renderer emits `(N)` when the length is present, nonzero and at most 4000,
`(MAX)` when it exceeds 4000 — the 4000 threshold applies to VARBINARY as
well, not a separate 8000 one — and the default `(255)` when the length is
absent or zero; and the translated length of a VARBINARY column with a given
source byte length is that byte length clamped to at most 8000. -/
theorem c4_variable_length_rendering (col : ColumnInfo)
    (htype : col.data_type = "NVARCHAR" ∨ col.data_type = "NCHAR" ∨ col.data_type = "VARBINARY") :
    (∀ L, col.max_length = some L → L ≠ 0 → L ≤ 4000 →
      format_column_type col = col.data_type ++ "(" ++ toString L ++ ")") ∧
    (∀ L, col.max_length = some L → 4000 < L →
      format_column_type col = col.data_type ++ "(MAX)") ∧
    ((col.max_length = none ∨ col.max_length = some 0) →
      format_column_type col = col.data_type ++ "(255)") ∧
    (∀ c L, (translate_type c).1 = "VARBINARY" → c.max_length = some L →
      (translate_column c).max_length = some (min L 8000)) := by
  refine ⟨?_, ?_, ?_, ?_⟩
  · intro L hL hnz hle
    unfold format_column_type
    rw [hL, if_pos htype]
    rw [if_pos (show int_truthy (some L) = true by simp [int_truthy, bne_iff_ne, hnz])]
    rw [if_neg (show ¬((some L).getD 0 > 4000) by simp only [Option.getD_some]; omega)]
    simp only [Option.getD_some]
  · intro L hL hgt
    unfold format_column_type
    rw [hL, if_pos htype]
    rw [if_pos (show int_truthy (some L) = true by simp [int_truthy, bne_iff_ne]; omega)]
    rw [if_pos (show (some L).getD 0 > 4000 by simp only [Option.getD_some]; omega)]
  · rintro (hml | hml) <;>
      · unfold format_column_type
        rw [hml, if_pos htype, if_neg (by decide)]
  · intro c L h hL
    obtain ⟨-, -, -, hml, -, -, -, -, -⟩ := translate_column_fields c
    rw [hml, hL, h]
    by_cases hz : L = 0
    · subst hz; decide
    · unfold translate_length
      rw [if_pos (Or.inr (Or.inr rfl))]
      simp [int_truthy, bne_iff_ne, hz]

/-- C4 witness: an NVARCHAR column of length 100 renders as `NVARCHAR(100)`. -/
theorem c4_variable_length_rendering_witness :
    format_column_type ⟨"name", "NVARCHAR", true, some 100, none, none, false, false, none⟩ = "NVARCHAR(100)" :=
  Eq.trans
    ((c4_variable_length_rendering ⟨"name", "NVARCHAR", true, some 100, none, none, false, false, none⟩
      (Or.inl rfl)).1 100 rfl (by decide) (by decide))
    (by decide)

/-- C4 counterexample: a VARBINARY column of length 5000 — within the 8000
bound the claim allows for binary types — is rendered `VARBINARY(MAX)`,
because the code applies the single `> 4000` threshold to all three
variable-length types. -/
theorem c4_varbinary_counterexample :
    format_column_definition ⟨"data", "VARBINARY", true, some 5000, none, none, false, false, none⟩
      = "[data] VARBINARY(MAX)" ∧ (5000 : Int) ≤ 8000 := by decide

/-- The projected-column loop of the view generator, as filter-then-map. -/
theorem view_fold_append (cols : List ColumnInfo) (acc : List String) :
    cols.foldl
      (fun acc col =>
        if col.column_name ≠ "record_insert_datetime" then
          acc ++ ["    [" ++ col.column_name ++ "]"]
        else acc)
      acc
    = acc ++ (cols.filter
        (fun col => col.column_name != "record_insert_datetime")).map
          (fun col => "    [" ++ col.column_name ++ "]") := by
  induction cols generalizing acc with
  | nil => simp
  | cons c cs ih =>
    rw [List.foldl_cons]
    by_cases h : c.column_name = "record_insert_datetime"
    · rw [if_neg (not_not_intro h), ih]
      simp [List.filter_cons, h]
    · rw [if_pos h, ih]
      simp [List.filter_cons, h, List.append_assoc]

/-- C5: audit augmentation appends exactly the one fixed
`record_insert_datetime` column (`DATETIME2`, not nullable, default
`GETDATE()`) at the end, changing nothing else in the table descriptor, and
the view's projected column list is exactly the columns whose name differs
from the audit column's, in original order. -/
theorem c5_audit_and_view (t : TableInfo) (columns : List ColumnInfo) :
    (add_audit_columns t).columns = t.columns ++ [audit_column] ∧
    audit_column.column_name = "record_insert_datetime" ∧
    audit_column.data_type = "DATETIME2" ∧
    audit_column.nullable = false ∧
    audit_column.default_value = some "GETDATE()" ∧
    (add_audit_columns t).table_name = t.table_name ∧
    (add_audit_columns t).schema_name = t.schema_name ∧
    (add_audit_columns t).table_type = t.table_type ∧
    (add_audit_columns t).primary_keys = t.primary_keys ∧
    (add_audit_columns t).unique_constraints = t.unique_constraints ∧
    (add_audit_columns t).row_count = t.row_count ∧
    view_column_list columns
      = (columns.filter
          (fun col => col.column_name != "record_insert_datetime")).map
            (fun col => "    [" ++ col.column_name ++ "]") := by
  refine ⟨rfl, rfl, rfl, rfl, rfl, rfl, rfl, rfl, rfl, rfl, rfl, ?_⟩
  unfold view_column_list
  rw [view_fold_append]
  simp

/-- C6 (amended): a column whose upper-cased type name is neither in the
static mapping nor NUMBER passes through with the UPPER-CASED source type
name (not the verbatim source spelling) and with its precision and scale
preserved. -/
theorem c6_unmapped_passthrough (col : ColumnInfo)
    (hmap : oracle_to_sqlserver_mapping (py_upper col.data_type) = none)
    (hnum : py_upper col.data_type ≠ "NUMBER") :
    (translate_column col).data_type = py_upper col.data_type ∧
    (translate_column col).precision = col.precision ∧
    (translate_column col).scale = col.scale := by
  obtain ⟨-, hdt, -, -, hp, hs, -, -, -⟩ := translate_column_fields col
  rw [hdt, hp, hs]
  simp [translate_type, hnum, hmap]

/-- C6 witness: the unmapped type `SDO_GEOMETRY` passes through with its
precision and scale intact. -/
theorem c6_unmapped_passthrough_witness :
    (translate_column ⟨"g", "SDO_GEOMETRY", true, none, some 5, some 2, false, false, none⟩).data_type = py_upper "SDO_GEOMETRY" ∧
    (translate_column ⟨"g", "SDO_GEOMETRY", true, none, some 5, some 2, false, false, none⟩).precision = some 5 ∧
    (translate_column ⟨"g", "SDO_GEOMETRY", true, none, some 5, some 2, false, false, none⟩).scale = some 2 :=
  c6_unmapped_passthrough ⟨"g", "SDO_GEOMETRY", true, none, some 5, some 2, false, false, none⟩
    (by decide) (by decide)

/-- C6 counterexample: the unmapped lower-case type name `geometry` does not
pass through unchanged — the code upper-cases it to `GEOMETRY` first, so the
mapping is not the identity on the type name. -/
theorem c6_passthrough_counterexample :
    oracle_to_sqlserver_mapping (py_upper "geometry") = none ∧
    py_upper "geometry" ≠ "NUMBER" ∧
    (translate_column ⟨"g", "geometry", true, none, none, none, false, false, none⟩).data_type ≠ "geometry" ∧
    (translate_column ⟨"g", "geometry", true, none, none, none, false, false, none⟩).data_type = "GEOMETRY" := by
  decide

set_option maxRecDepth 8000 in
/-- C7 (amended): naming validation returns false exactly when the name is
empty, longer than 128 characters, rejected by the identifier pattern as the
code matches it — where, per Python's `$` anchor, a single trailing newline
after a matching body is also accepted — or upper-cases into the reserved
set; and it rejects the empty name, a 129-character name, a digit-initial
name and `TABLE` in any letter case, while accepting `customer_orders`. -/
theorem c7_validation (s : String) :
    ((validate_naming_convention s).1 = false ↔
      (s = "" ∨ 128 < s.length ∨ regex_accepts s = false ∨
       reserved_words.contains (py_upper s) = true)) ∧
    (validate_naming_convention "").1 = false ∧
    (validate_naming_convention (String.mk (List.replicate 129 'a'))).1 = false ∧
    (validate_naming_convention "9abc").1 = false ∧
    (validate_naming_convention "TABLE").1 = false ∧
    (validate_naming_convention "Table").1 = false ∧
    (validate_naming_convention "table").1 = false ∧
    (validate_naming_convention "customer_orders").1 = true := by
  refine ⟨?_, by decide, by decide, by decide, by decide, by decide, by decide, by decide⟩
  unfold validate_naming_convention
  split_ifs with h1 h2 h3 h4 <;> simp_all

/-- C7 counterexample: the name `"a\n"` fails the regular expression
`^[A-Za-z_][A-Za-z0-9_]*$` under its ordinary full-match reading, yet the
code accepts it, because Python's `$` also matches just before a trailing
newline. -/
theorem c7_validation_counterexample :
    (validate_naming_convention "a\n").1 = true ∧
    regex_accepts_strict "a\n" = false := by decide

/-- C8: whole-table translation preserves the table's scalar fields, the
key and constraint lists, the row count, and the number, order, names,
nullability, key/unique flags and default values of the columns; only the
per-column type/length/precision/scale rewriting of `translate_column` is
applied. -/
theorem c8_translation_frame (t : TableInfo) :
    (translate_oracle_to_sqlserver t).table_name = t.table_name ∧
    (translate_oracle_to_sqlserver t).schema_name = t.schema_name ∧
    (translate_oracle_to_sqlserver t).table_type = t.table_type ∧
    (translate_oracle_to_sqlserver t).primary_keys = t.primary_keys ∧
    (translate_oracle_to_sqlserver t).unique_constraints = t.unique_constraints ∧
    (translate_oracle_to_sqlserver t).row_count = t.row_count ∧
    (translate_oracle_to_sqlserver t).columns.length = t.columns.length ∧
    (translate_oracle_to_sqlserver t).columns.map (fun c => c.column_name)
      = t.columns.map (fun c => c.column_name) ∧
    (translate_oracle_to_sqlserver t).columns.map (fun c => c.nullable)
      = t.columns.map (fun c => c.nullable) ∧
    (translate_oracle_to_sqlserver t).columns.map (fun c => c.is_primary_key)
      = t.columns.map (fun c => c.is_primary_key) ∧
    (translate_oracle_to_sqlserver t).columns.map (fun c => c.is_unique)
      = t.columns.map (fun c => c.is_unique) ∧
    (translate_oracle_to_sqlserver t).columns.map (fun c => c.default_value)
      = t.columns.map (fun c => c.default_value) ∧
    (translate_oracle_to_sqlserver t).columns = t.columns.map translate_column := by
  refine ⟨rfl, rfl, rfl, rfl, rfl, rfl, by simp [translate_oracle_to_sqlserver], ?_, ?_, ?_, ?_, ?_, rfl⟩ <;>
    · show (t.columns.map translate_column).map _ = _
      rw [List.map_map]
      rfl

/-- The per-column step of the storage loop adds exactly
`column_size_estimate` to the running row size. -/
theorem storage_accumulate_fst (acc : Int × Int) (col : ColumnInfo) :
    (storage_accumulate acc col).1 = acc.1 + column_size_estimate col := by
  unfold storage_accumulate column_size_estimate
  split_ifs <;> rfl

/-- The storage loop's row-size accumulator, as a sum over columns. -/
theorem storage_fold_fst (cols : List ColumnInfo) (acc : Int × Int) :
    (cols.foldl storage_accumulate acc).1
      = acc.1 + (cols.map column_size_estimate).sum := by
  induction cols generalizing acc with
  | nil => simp
  | cons c cs ih =>
    rw [List.foldl_cons, ih, storage_accumulate_fst]
    simp [List.map_cons, List.sum_cons]
    ring

/-- C9 (amended): the estimated per-row size is the sum over columns of the
per-column heuristic — in which VARBINARY shares the `length × 2` rule (with
the 510 default when the length is absent or zero) with the Unicode
variable-length type, and a zero fixed-char length falls back to 1 — plus
the fixed 24-byte row overhead; the table size is that times the row count
over 1024 × 1024 megabytes when the row count is present and nonzero, and 0
otherwise. -/
theorem c9_storage_estimate (t : TableInfo) :
    (estimate_storage_impact t).estimated_row_size_bytes
      = (t.columns.map column_size_estimate).sum + 24 ∧
    (estimate_storage_impact t).estimated_table_size_mb
      = (if int_truthy t.row_count = true then
           ((((t.columns.map column_size_estimate).sum + 24) * t.row_count.getD 0 : Int) : ℚ)
             / ((1024 : ℚ) * 1024)
         else 0) := by
  have h1 : (estimate_storage_impact t).estimated_row_size_bytes
      = (t.columns.foldl storage_accumulate ((0 : Int), (0 : Int))).1 + 24 := rfl
  have h2 : (estimate_storage_impact t).estimated_table_size_mb
      = (if int_truthy t.row_count = true then
           ((((t.columns.foldl storage_accumulate ((0 : Int), (0 : Int))).1 + 24)
              * t.row_count.getD 0 : Int) : ℚ) / ((1024 : ℚ) * 1024)
         else 0) := rfl
  rw [h1, h2, storage_fold_fst]
  constructor
  · simp
  · simp

/-- C9 counterexample: a table whose single column is `VARBINARY(100)` gets
an estimated row size of 100 × 2 + 24 = 224 bytes, not the 8 + 24 = 32 the
claim's "8 for every other type" rule would give, because the code's
`length × 2` arm covers VARBINARY as well. -/
theorem c9_storage_counterexample :
    (estimate_storage_impact
      ⟨"t", "s", "TABLE",
       [⟨"b", "VARBINARY", true, some 100, none, none, false, false, none⟩],
       [], [], none⟩).estimated_row_size_bytes = 224 ∧
    ¬(224 : Int) = 8 + 24 := by decide

/-- C10 (amended): every translated NVARCHAR or NCHAR column carries a
present length that is either in `[1, 4000]` or — only when the source
length was exactly 0, which Python truthiness exempts from the clamp — 0;
in either case the `> 4000` test that selects the `(MAX)` branch of the
column renderer can never fire on such a column. -/
theorem c10_char_length_invariant (col : ColumnInfo)
    (htype : (translate_column col).data_type = "NVARCHAR" ∨
             (translate_column col).data_type = "NCHAR") :
    (∃ n, (translate_column col).max_length = some n ∧
      (n = 0 ∨ (1 ≤ n ∧ n ≤ 4000))) ∧
    ¬(int_truthy (translate_column col).max_length = true ∧
      4000 < ((translate_column col).max_length).getD 0) := by
  obtain ⟨-, hdt, -, hml, -, -, -, -, -⟩ := translate_column_fields col
  rw [hdt] at htype
  have main : ∃ n, (translate_column col).max_length = some n ∧
      (n = 0 ∨ (1 ≤ n ∧ n ≤ 4000)) := by
    rw [hml]
    cases hsrc : col.max_length with
    | none =>
      rcases htype with h | h <;> rw [h]
      · exact ⟨63, by decide, by decide⟩
      · exact ⟨1, by decide, by decide⟩
    | some L =>
      by_cases hz : L = 0
      · subst hz
        rcases htype with h | h <;> rw [h]
        · exact ⟨0, by decide, Or.inl rfl⟩
        · exact ⟨0, by decide, Or.inl rfl⟩
      · rw [translate_length_char _ _ htype hz]
        exact ⟨_, rfl, Or.inr (clamp_mem _)⟩
  refine ⟨main, ?_⟩
  obtain ⟨n, hn, hcase⟩ := main
  rintro ⟨ht, hgt⟩
  rw [hn] at ht hgt
  simp only [Option.getD_some] at hgt
  rcases hcase with h0 | ⟨-, hub⟩
  · subst h0
    simp [int_truthy] at ht
  · omega

/-- C10 witness: a translated `VARCHAR2(400)` column is `NVARCHAR` of
length 100, inside `[1, 4000]`, and cannot take the `(MAX)` branch. -/
theorem c10_char_length_invariant_witness :
    (∃ n, (translate_column ⟨"name", "VARCHAR2", true, some 400, none, none, false, false, none⟩).max_length = some n ∧
      (n = 0 ∨ (1 ≤ n ∧ n ≤ 4000))) ∧
    ¬(int_truthy (translate_column ⟨"name", "VARCHAR2", true, some 400, none, none, false, false, none⟩).max_length = true ∧
      4000 < ((translate_column ⟨"name", "VARCHAR2", true, some 400, none, none, false, false, none⟩).max_length).getD 0) :=
  c10_char_length_invariant ⟨"name", "VARCHAR2", true, some 400, none, none, false, false, none⟩
    (Or.inl (by decide))

/-- C10 counterexample: an `NVARCHAR2` column whose source byte length is
exactly 0 translates to an NVARCHAR column of length 0, outside the claimed
inclusive range `[1, 4000]`. -/
theorem c10_invariant_counterexample :
    (translate_column ⟨"c", "NVARCHAR2", true, some 0, none, none, false, false, none⟩).data_type = "NVARCHAR" ∧
    (translate_column ⟨"c", "NVARCHAR2", true, some 0, none, none, false, false, none⟩).max_length = some 0 ∧
    ¬(1 : Int) ≤ 0 := by decide
